import Mathlib

/-!
Verification of the Adaptive-ATC scenario engine.

This file gives a shallow embedding, in Lean 4, of the core of
`backend/scenarios/base_scenario.py` (event scheduler, measurement tracker,
alert lifecycle manager) and of the pairwise conflict check shared by
`backend/simulation/physics.py` and `backend/simulation/sim_engine.py`,
together with theorems about the embedded definitions.

Modelling conventions:
* Python floats are modelled as `ℚ` (every IEEE double is a rational);
  transcendental library calls (`math.sin`, `math.cos`, `math.sqrt`,
  `math.atan2`, `math.pi`) are passed in as explicit oracle parameters.
* Python dicts with string keys are association lists in insertion order;
  `d[k] = v` replaces the first entry with key `k` in place, or appends.
* Python dicts used as records with a known key set are Lean structures,
  with `Option` fields for keys that may be absent (`none` = key missing,
  which also models an attribute never set via `hasattr`).
* Wall-clock metadata (`datetime.now()` timestamps) and opaque payload
  dicts that no embedded logic ever reads are elided.
-/

/-- Whether the first character list starts the second. -/
def startsWithL : List Char → List Char → Bool
  | [], _ => true
  | _ :: _, [] => false
  | a :: as, b :: bs => a == b && startsWithL as bs

/-- Whether the first character list occurs contiguously in the second. -/
def infixL (needle : List Char) : List Char → Bool
  | [] => needle.isEmpty
  | b :: rest => startsWithL needle (b :: rest) || infixL needle rest

/-- Python's `needle in hay` on strings: substring test. -/
def pyIn (needle hay : String) : Bool := infixL needle.data hay.data

/-- Python's `a or b or ... or 0` over float-or-None values: the first value
that is present and nonzero, else `0`. -/
def firstTruthy : List (Option ℚ) → ℚ
  | [] => 0
  | some x :: rest => if x = 0 then firstTruthy rest else x
  | none :: rest => firstTruthy rest

/-- Python's `int()` on a float: truncation toward zero. -/
def pyInt (q : ℚ) : ℤ := if 0 ≤ q then ⌊q⌋ else ⌈q⌉

/-- Python's `s.get(key)` on a dict modelled as an association list:
the value at the first entry with the given key. -/
def lookupD {α : Type} (l : List (String × α)) (k : String) : Option α :=
  (l.find? (fun p => decide (p.1 = k))).map (·.2)

/-- In-place update of the entry at a key of a Python dict: the first entry
with that key is replaced, keeping its position; other entries are kept. -/
def setEntry {α : Type} : List (String × α) → String → α → List (String × α)
  | [], _, _ => []
  | p :: rest, k, v => if p.1 = k then (k, v) :: rest else p :: setEntry rest k v

/-- Python's `d[k] = v`: replace the entry in place when the key is present,
append a new entry otherwise. -/
def dictSet {α : Type} (l : List (String × α)) (k : String) (v : α) :
    List (String × α) :=
  if l.any (fun p => decide (p.1 = k)) then setEntry l k v else l ++ [(k, v)]

namespace Scenario

/-- `base_scenario.Aircraft` (radar-coordinate aircraft of the scenario
engine). `altitude_deviation_resolved` and `vfr_resolved` are dynamic
attributes probed with `hasattr`, so they are `Option Bool` (`none` =
attribute never set). -/
structure Aircraft where
  callsign : String
  position : ℚ × ℚ
  altitude : ℤ
  heading : ℤ
  speed : ℤ
  emergency : Bool := false
  emergency_type : Option String := none
  comm_status : String := "normal"
  datalink_status : String := "normal"
  route : Option String := none
  destination : Option String := none
  fuel_remaining : Option ℤ := none
  last_contact_time : ℚ := 0
  mood : String := "happy"
  total_angry_time : ℚ := 0
  max_ignored_time : ℚ := 0
  altitude_deviation_resolved : Option Bool := none
  vfr_resolved : Option Bool := none
deriving DecidableEq

/-- `base_scenario.ScenarioEvent`; the opaque `data` payload dict is
elided (no scheduler logic reads it, only the per-type handlers do). -/
structure ScenarioEvent where
  time_offset : ℚ
  event_type : String
  target : String
  triggered : Bool := false
deriving DecidableEq

/-- `base_scenario.SAGATProbe`; the question payload is elided. -/
structure SAGATProbe where
  time_offset : ℚ
  triggered : Bool := false
  response : Option String := none
deriving DecidableEq

/-- One measurement dict. Different creators use different time keys
(`event_time` from `register_measurement`, `loss_time`, `conflict_time`,
... from individual handlers); extra payload keys are elided. -/
structure Measurement where
  event_type : Option String := none
  target : Option String := none
  event_time : Option ℚ := none
  loss_time : Option ℚ := none
  deviation_time : Option ℚ := none
  intrusion_time : Option ℚ := none
  alarm_time : Option ℚ := none
  conflict_time : Option ℚ := none
  detected_time : Option ℚ := none
  resolved_time : Option ℚ := none
  detection_delay : Option ℚ := none
  resolution_delay : Option ℚ := none
deriving DecidableEq

/-- An affected-region dict as produced by `_get_affected_region`. -/
structure Region where
  rtype : String
  center : Option (ℚ × ℚ) := none
  radius : Option ℚ := none
  altitude_range : Option (ℤ × ℤ) := none
deriving DecidableEq

/-- An `ml_prediction` sub-dict. An absent or empty dict is falsy. -/
structure MLPred where
  confidence : Option ℚ := none
  rationale : Option String := none
  explanation : Option String := none
deriving DecidableEq

/-- Python truthiness of the `ml_prediction` dict: nonempty. -/
def MLPred.truthy (m : MLPred) : Bool :=
  m.confidence.isSome || m.rationale.isSome || m.explanation.isSome

/-- The `data` dict argument of `generate_alert`, restricted to the keys
the function reads. -/
structure AlertData where
  priority : Option String := none
  message : Option String := none
  required_action : Option String := none
  is_prediction : Option Bool := none
  affected_region : Option Region := none
  ml_prediction : Option MLPred := none
  confidence : Option ℚ := none
  peripheral_cue : Option Bool := none
  recommended_actions : Option (List String) := none
  highlight_regions : Option (List Region) := none
deriving DecidableEq

/-- An alert dict (union of all keys any code path writes); `Option`
fields model keys only some paths add. The wall-clock `timestamp`
string is elided. -/
structure Alert where
  alert_id : String
  type : String
  target : String
  priority : String
  message : String
  elapsed_time : ℚ
  affected_region : Region
  related_traffic : List String
  required_action : String
  generated_at : ℚ
  displayed_at : Option ℚ := none
  acknowledged_at : Option ℚ := none
  resolved_at : Option ℚ := none
  presentation : Option String := none
  blocking : Option Bool := none
  requires_acknowledgment : Option Bool := none
  audio : Option Bool := none
  adaptive_style : Option String := none
  peripheral_cue : Option Bool := none
  recommended_actions : Option (List String) := none
  ml_prediction : Option MLPred := none
  confidence : Option ℚ := none
  highlight_regions : Option (List Region) := none
  updated_at : Option ℚ := none
  update_count : Option ℕ := none
  last_emitted_at : Option ℚ := none
  reemit_count : Option ℕ := none
  is_reemit : Option Bool := none
  suppress_audio : Option Bool := none
  status : Option String := none
deriving DecidableEq

/-- A suppression record appended to `suppressed_alerts`. -/
structure Suppressed where
  alert_id : String
  type : String
  target : String
  priority : String
  reason : String
  suppressed_at : ℚ
deriving DecidableEq

/-- The `weather_system` dict set by `_handle_weather_event`. -/
structure WeatherSys where
  center : Option (ℚ × ℚ) := none
  radius : Option ℚ := none
  severity : Option String := none
  active : Bool := true
deriving DecidableEq

/-- A recorded participant interaction (payload dict and wall-clock
timestamp elided). -/
structure Interaction where
  time : ℚ
  type : String
  target : String
deriving DecidableEq

/-- The mutable state of a `BaseScenario` instance, with the `__init__`
defaults. `started` models `start_time is not None`. The gamification
fields and `pending_predictions` are elided (no embedded operation reads
them). -/
structure State where
  condition : ℤ := 1
  started : Bool := false
  paused : Bool := false
  elapsed_time : ℚ := 0
  last_elapsed_time : ℚ := 0
  aircraft : List (String × Aircraft) := []
  events : List ScenarioEvent := []
  sagat_probes : List SAGATProbe := []
  measurements : List (String × Measurement) := []
  interactions : List Interaction := []
  current_phase : ℕ := 0
  phase_descriptions : List String := []
  active_alerts : List (String × Alert) := []
  alert_history : List Alert := []
  max_simultaneous_alerts : ℕ := 3
  suppressed_alerts : List Suppressed := []
  resolved_predictions : List String := []
  weather_system : Option WeatherSys := none
deriving DecidableEq

end Scenario

namespace Scenario

/-- `BaseScenario.register_measurement` (the optional extra payload dict is
elided; its keys never collide with the tracked timestamp keys in any
caller). Returns the measurement key and the updated state. -/
def register_measurement (s : State) (event_type target : String) :
    String × State :=
  let key := target ++ "_" ++ event_type ++ "_detection"
  let m : Measurement := { event_type := some event_type,
                           target := some target,
                           event_time := some s.elapsed_time }
  (key, { s with measurements := dictSet s.measurements key m })

/-- The key `resolve_measurement` looks up: the exact key first, otherwise
the first measurement whose key contains both `target` and `event_type`
as substrings (the backwards-compatibility partial match). -/
def resolveLookupKey (s : State) (target event_type : String) :
    Option String :=
  let key := target ++ "_" ++ event_type ++ "_detection"
  match lookupD s.measurements key with
  | some _ => some key
  | none =>
      (s.measurements.find? (fun p => pyIn target p.1 && pyIn event_type p.1)).map (·.1)

/-- `BaseScenario.resolve_measurement`. Marks a measurement as detected or
resolved, first-write-wins; returns whether an update occurred. The source
reads `measurement['event_time']` directly (a `KeyError` if the key is
absent); the embedding totalises that read with default `0` — every claim
below only exercises measurements where the key is present. -/
def resolve_measurement (s : State) (target event_type : String)
    (resolution_type : String) : Bool × State :=
  match resolveLookupKey s target event_type with
  | none => (false, s)
  | some k =>
    match lookupD s.measurements k with
    | none => (false, s)
    | some m =>
      if resolution_type = "detected" then
        if m.detected_time = none then
          let m2 := { m with detected_time := some s.elapsed_time,
                             detection_delay :=
                               some (s.elapsed_time - m.event_time.getD 0) }
          (true, { s with measurements := setEntry s.measurements k m2 })
        else (false, s)
      else if resolution_type = "resolved" then
        if m.resolved_time = none then
          let m2 := { m with resolved_time := some s.elapsed_time,
                             resolution_delay :=
                               some (s.elapsed_time - m.event_time.getD 0) }
          (true, { s with measurements := setEntry s.measurements k m2 })
        else (false, s)
      else (false, s)

/-- The detection-interaction classification list of
`_check_measurement_resolution`. It is defined in the source but never
consulted afterwards. -/
def detection_interactions : List String :=
  ["click", "select", "hover", "focus", "inspect"]

/-- The resolution-interaction classification list of
`_check_measurement_resolution`. -/
def resolution_interactions : List String :=
  ["command", "clearance", "frequency_change",
   "altitude_command", "heading_command", "speed_command",
   "vector", "handoff", "acknowledge", "radio_contact",
   "dismiss", "clear", "resolve"]

/-- The `event_time = m.get('event_time') or m.get('loss_time') or ... or 0`
chain of `_check_measurement_resolution`. -/
def eventTimeChain (m : Measurement) : ℚ :=
  firstTruthy [m.event_time, m.loss_time, m.deviation_time,
               m.intrusion_time, m.alarm_time, m.conflict_time]

/-- The loop body of `_check_measurement_resolution` applied to one
measurement entry: skip keys that do not contain the interaction target
as a substring; otherwise fill in the unset `detected_time` (for any
interaction type) and the unset `resolved_time` (when the interaction
type is in the resolution list). -/
def cmrUpdate (now : ℚ) (interaction_type target : String)
    (k : String) (m : Measurement) : Measurement :=
  if pyIn target k = false then m
  else
    let event_time := eventTimeChain m
    let m1 := if m.detected_time = none then
        { m with detected_time := some now,
                 detection_delay := some (now - event_time) }
      else m
    if m1.resolved_time = none ∧
        interaction_type ∈ resolution_interactions then
      { m1 with resolved_time := some now,
                resolution_delay := some (now - event_time) }
    else m1

/-- `BaseScenario._check_measurement_resolution`: the loop over all
measurement entries. -/
def check_measurement_resolution (s : State)
    (interaction_type target : String) : State :=
  { s with measurements := s.measurements.map (fun p =>
      (p.1, cmrUpdate s.elapsed_time interaction_type target p.1 p.2)) }

/-- `BaseScenario.record_interaction` (interaction payload dict and
wall-clock timestamp elided). -/
def record_interaction (s : State) (interaction_type target : String) :
    State :=
  let s1 := { s with interactions :=
    s.interactions ++ [⟨s.elapsed_time, interaction_type, target⟩] }
  check_measurement_resolution s1 interaction_type target

/-- The `priority_order` table of `_update_alert`, with `.get(p, 0)`
semantics for unknown priorities. -/
def priority_order (p : String) : ℕ :=
  if p = "low" then 0
  else if p = "medium" then 1
  else if p = "high" then 2
  else if p = "critical" then 3
  else 0

/-- `BaseScenario._find_similar_alert`: the first active alert with the
same type and target. -/
def find_similar_alert (active : List (String × Alert)) (ty tgt : String) :
    Option Alert :=
  (active.find? (fun p => decide (p.2.type = ty ∧ p.2.target = tgt))).map (·.2)

/-- `BaseScenario._update_alert`: replace the message when one is given,
raise the priority when the new one is strictly higher, stamp
`updated_at` and bump `update_count`. -/
def update_alert (s : State) (alert_id : String) (new_data : AlertData) :
    Option Alert × State :=
  match lookupD s.active_alerts alert_id with
  | none => (none, s)
  | some alert =>
    let a1 := match new_data.message with
      | some msg => { alert with message := msg }
      | none => alert
    let new_priority := new_data.priority.getD "medium"
    let a2 := if priority_order new_priority > priority_order a1.priority then
        { a1 with priority := new_priority }
      else a1
    let a3 := { a2 with updated_at := some s.elapsed_time,
                        update_count := some (a2.update_count.getD 0 + 1) }
    (some a3, { s with active_alerts := setEntry s.active_alerts alert_id a3 })

/-- `BaseScenario._has_blocking_modal`: an active alert whose `blocking`
key is truthy and which is not yet acknowledged. -/
def has_blocking_modal (active : List (String × Alert)) : Bool :=
  active.any (fun p => p.2.blocking = some true && p.2.acknowledged_at = none)

/-- `BaseScenario._get_affected_region`. -/
def get_affected_region (s : State) (target alert_type : String)
    (data : AlertData) : Region :=
  match data.affected_region with
  | some r => r
  | none =>
    match lookupD s.aircraft target with
    | some aircraft =>
        { rtype := "aircraft_vicinity", center := some aircraft.position,
          radius := some 20,
          altitude_range := some (aircraft.altitude - 20, aircraft.altitude + 20) }
    | none =>
      if target = "system" ∨ alert_type = "weather" ∨ alert_type = "system_crash" then
        match s.weather_system with
        | some w =>
            { rtype := "weather_affected", center := some (w.center.getD (125, 125)),
              radius := some (w.radius.getD 30) }
        | none => { rtype := "sector_wide" }
      else { rtype := "sector_wide" }

/-- `BaseScenario._get_related_traffic`. `(dx**2+dy**2)**0.5 < 30` is
expressed as the equivalent `dx^2 + dy^2 < 900` (both sides nonnegative);
`list(set(...))` is modelled as duplicate removal. -/
def get_related_traffic (s : State) (target alert_type : String) :
    List String :=
  if alert_type = "conflict" ∨ alert_type = "conflict_threshold" then
    (s.measurements.foldl (fun acc p =>
      if pyIn target p.1 && pyIn "conflict" p.1 then
        acc ++ (p.1.replace "_conflict_resolution" "").splitOn "_"
      else acc) []).dedup
  else if alert_type = "emergency" then
    match lookupD s.aircraft target with
    | some target_ac =>
        (s.aircraft.foldl (fun acc p =>
          if p.1 ≠ target then
            let dx := p.2.position.1 - target_ac.position.1
            let dy := p.2.position.2 - target_ac.position.2
            let alt_diff := |p.2.altitude - target_ac.altitude|
            if dx ^ 2 + dy ^ 2 < 900 ∧ alt_diff < 40 then acc ++ [p.1] else acc
          else acc) []).dedup
    | none => []
  else []

/-- `BaseScenario._get_required_action`: the per-type action map with its
default. -/
def get_required_action (alert_type : String) : String :=
  if alert_type = "emergency" then
    "Provide priority handling and coordinate with adjacent sectors"
  else if alert_type = "comm_loss" then
    "Attempt re-contact on guard frequency 121.5, initiate NORDO procedures"
  else if alert_type = "conflict" then
    "Issue immediate vectors or altitude change to resolve conflict"
  else if alert_type = "altitude_deviation" then
    "Verify with pilot, issue corrective clearance if unauthorized"
  else if alert_type = "vfr_intrusion" then
    "Contact aircraft on guard frequency, instruct to exit controlled airspace"
  else if alert_type = "weather" then
    "Coordinate reroutes around weather, monitor capacity"
  else if alert_type = "system_crash" then
    "Switch to backup systems, increase manual monitoring"
  else if alert_type = "false_alarm" then
    "Verify actual separation, dismiss if confirmed false"
  else if alert_type = "delayed_alert" then
    "Verify current status, take immediate action if conflict confirmed"
  else "Monitor situation and take appropriate action"

/-- `BaseScenario._determine_adaptive_style`. -/
def determine_adaptive_style (s : State) (alert_type : String) : String :=
  let active_emergencies := s.aircraft.countP (fun p => p.2.emergency)
  if 0 < active_emergencies ∧ alert_type ≠ "emergency" then "subtle"
  else "prominent"

/-- `BaseScenario.should_show_real_alert`: false exactly when the matching
ML prediction was resolved by the user. -/
def should_show_real_alert (s : State) (event_type target : String) : Bool :=
  !(decide ((target ++ "_" ++ event_type) ∈ s.resolved_predictions))

/-- Python's `data.get('required_action') or self._get_required_action(...)`:
the data value when present and truthy (nonempty), else the table lookup. -/
def requiredActionOf (data : AlertData) (alert_type : String) : String :=
  match data.required_action with
  | some a => if a = "" then get_required_action alert_type else a
  | none => get_required_action alert_type

/-- Append one suppression record (the inline dict-append of
`generate_alert`'s suppression branches). -/
def addSuppressed (s : State) (alert_id ty tgt priority reason : String) :
    State :=
  { s with suppressed_alerts := s.suppressed_alerts ++
      [{ alert_id := alert_id, type := ty, target := tgt,
         priority := priority, reason := reason,
         suppressed_at := s.elapsed_time }] }

/-- The count `sum(1 for a in self.active_alerts.values() if
a.get('priority') not in ['critical', 'high'])`. -/
def nonCriticalActive (active : List (String × Alert)) : ℕ :=
  active.countP (fun p => decide (p.2.priority ≠ "critical" ∧ p.2.priority ≠ "high"))

/-- The alert dict constructed on the non-suppressed path of
`generate_alert`: the context-rich base alert plus the
condition-specific presentation fields. -/
def build_alert (s : State) (alert_type target : String) (data : AlertData)
    (alert_id priority : String) : Alert :=
  let base_alert : Alert :=
    { alert_id := alert_id, type := alert_type, target := target,
      priority := priority, message := data.message.getD "",
      elapsed_time := s.elapsed_time,
      affected_region := get_affected_region s target alert_type data,
      related_traffic := get_related_traffic s target alert_type,
      required_action := requiredActionOf data alert_type,
      generated_at := s.elapsed_time }
  if s.condition = 1 then
    { base_alert with presentation := some "modal", blocking := some true,
                      requires_acknowledgment := some true, audio := some true }
  else if s.condition = 2 then
    { base_alert with presentation := some "banner", blocking := some false,
                      requires_acknowledgment := some false,
                      audio := some (decide (alert_type = "emergency")),
                      adaptive_style := some (determine_adaptive_style s alert_type),
                      peripheral_cue := some (data.peripheral_cue.getD false),
                      recommended_actions := some (data.recommended_actions.getD []) }
  else if s.condition = 3 then
    let mlp0 := data.ml_prediction.getD {}
    let mlp1 := if mlp0.truthy ∧ mlp0.confidence = none then
        { mlp0 with confidence := some (data.confidence.getD (4 / 5)) }
      else mlp0
    let fallback_rationale := mlp1.explanation.getD "Alert generated based on scenario conditions"
    let mlp2 := if mlp1.truthy ∧ mlp1.rationale = none then
        { mlp1 with rationale := some fallback_rationale }
      else mlp1
    { base_alert with presentation := some "banner", blocking := some false,
                      requires_acknowledgment := some false, audio := some false,
                      ml_prediction := some mlp2,
                      confidence := some (data.confidence.getD (4 / 5)),
                      highlight_regions := some (data.highlight_regions.getD []) }
  else base_alert

/-- `BaseScenario.generate_alert`: ML-resolved-prediction suppression,
deduplication against an active (type, target) alert, blocking-modal
suppression, the non-critical cap, then construction and tracking. -/
def generate_alert (s : State) (alert_type target : String)
    (data : AlertData) : Option Alert × State :=
  let alert_id := alert_type ++ "_" ++ target ++ "_" ++ toString (pyInt s.elapsed_time)
  let priority := data.priority.getD "medium"
  if s.condition = 3 ∧ alert_type ≠ "ml_prediction" ∧
      data.is_prediction.getD false = false ∧
      should_show_real_alert s alert_type target = false then
    (none, addSuppressed s alert_id alert_type target priority "ml_prediction_resolved")
  else
    match find_similar_alert s.active_alerts alert_type target with
    | some existing_alert => update_alert s existing_alert.alert_id data
    | none =>
      if has_blocking_modal s.active_alerts = true ∧
          priority ≠ "critical" ∧ priority ≠ "high" then
        (none, addSuppressed s alert_id alert_type target priority "blocking_modal_active")
      else if s.max_simultaneous_alerts ≤ nonCriticalActive s.active_alerts ∧
          priority ≠ "critical" ∧ priority ≠ "high" then
        (none, addSuppressed s alert_id alert_type target priority "max_alerts_reached")
      else
        let alert := build_alert s alert_type target data alert_id priority
        (some alert,
          { s with active_alerts := dictSet s.active_alerts alert_id alert,
                   alert_history := s.alert_history ++ [{ alert with status := some "generated" }] })

/-- `BaseScenario.acknowledge_alert`. -/
def acknowledge_alert (s : State) (alert_id : String) : Bool × State :=
  match lookupD s.active_alerts alert_id with
  | none => (false, s)
  | some alert =>
    let a2 := { alert with acknowledged_at := some s.elapsed_time }
    (true, { s with active_alerts := setEntry s.active_alerts alert_id a2 })

/-- `BaseScenario.resolve_alert`: stamp `resolved_at`/`status` on the alert
(observable only through the history records, since the alert is then
deleted from the active set), mark every history record with the same id
resolved, and remove the alert from the active set. -/
def resolve_alert (s : State) (alert_id : String) : Bool × State :=
  match lookupD s.active_alerts alert_id with
  | none => (false, s)
  | some _ =>
    let hist := s.alert_history.map (fun h =>
      if h.alert_id = alert_id then
        { h with resolved_at := some s.elapsed_time, status := some "resolved" }
      else h)
    (true, { s with
      active_alerts := s.active_alerts.filter (fun p => !(decide (p.1 = alert_id))),
      alert_history := hist })

/-- The type of one entry of the `_event_handlers` registry: an event
handler mutates the scenario state. -/
abbrev Handler := ScenarioEvent → State → State

/-- The `_event_handlers` registry (a mutable instance dict, extensible via
`register_handler`), taken as a parameter of the scheduler. -/
abbrev Handlers := String → Option Handler

/-- `BaseScenario._trigger_event`: dispatch through the handler registry;
an unknown event type only logs a warning. -/
def trigger_event (h : Handlers) (e : ScenarioEvent) (s : State) : State :=
  match h e.event_type with
  | some handler => handler e s
  | none => s

/-- The loop body of `_check_and_trigger_events`: walk the events list,
marking each untriggered event whose `time_offset` has been reached,
running its handler, and collecting its (marked) dict. Returns the updated
events list, the threaded state and the triggered list. The handlers of
the default registry never modify `self.events` or `self.elapsed_time`,
which is why the flag updates can be threaded structurally. -/
def triggerGo (h : Handlers) :
    List ScenarioEvent → State → List ScenarioEvent × State × List ScenarioEvent
  | [], s => ([], s, [])
  | e :: rest, s =>
    if e.triggered = false ∧ e.time_offset ≤ s.elapsed_time then
      let marked := { e with triggered := true }
      let s1 := trigger_event h marked s
      let r := triggerGo h rest s1
      (marked :: r.1, r.2.1, marked :: r.2.2)
    else
      let r := triggerGo h rest s
      (e :: r.1, r.2.1, r.2.2)

/-- `BaseScenario._check_and_trigger_events`. -/
def check_and_trigger_events (h : Handlers) (s : State) :
    State × List ScenarioEvent :=
  let r := triggerGo h s.events s
  ({ r.2.1 with events := r.1 }, r.2.2)

/-- One scheduler advance: the elapsed-time update of `update()` followed
by `_check_and_trigger_events` (the portion of the tick the scheduler
claims are about). -/
def advance (h : Handlers) (s : State) (t : ℚ) : State × List ScenarioEvent :=
  check_and_trigger_events h { s with elapsed_time := t }

/-- A sequence of scheduler advances, collecting the triggered list of
each step. -/
def advanceSeq (h : Handlers) (s : State) :
    List ℚ → State × List (List ScenarioEvent)
  | [] => (s, [])
  | t :: ts =>
    let r1 := advance h s t
    let r2 := advanceSeq h r1.1 ts
    (r2.1, r1.2 :: r2.2)

/-- `BaseScenario._check_sagat_probes`. -/
def check_sagat_probes (s : State) : State × List SAGATProbe :=
  ({ s with sagat_probes := s.sagat_probes.map (fun p =>
      if p.triggered = false ∧ p.time_offset ≤ s.elapsed_time then
        { p with triggered := true }
      else p) },
   (s.sagat_probes.filter (fun p =>
      !p.triggered && decide (p.time_offset ≤ s.elapsed_time))).map
     (fun p => { p with triggered := true }))

/-- `BaseScenario._update_aircraft_positions`. `sinDeg`/`cosDeg` are
oracles for `math.sin(math.radians(heading))` and
`math.cos(math.radians(heading))`. -/
def update_aircraft_positions (sinDeg cosDeg : ℤ → ℚ) (dt : ℚ)
    (s : State) : State :=
  { s with aircraft := s.aircraft.map (fun p =>
      let aircraft := p.2
      let effective_dt := min dt 5
      let speed_nm_per_sec := (aircraft.speed : ℚ) / 3600
      let dx := speed_nm_per_sec * sinDeg aircraft.heading * effective_dt
      let dy := speed_nm_per_sec * cosDeg aircraft.heading * effective_dt
      (p.1, { aircraft with position :=
        (aircraft.position.1 + dx, aircraft.position.2 + dy) })) }

/-- The per-alert auto-resolution test of `_check_alert_resolution`. -/
def shouldAutoResolve (st : State) (alert : Alert) : Bool :=
  let aircraft := lookupD st.aircraft alert.target
  if alert.type = "comm_loss" then
    match aircraft with
    | some ac => decide (ac.comm_status = "normal")
    | none => false
  else if alert.type = "emergency" then
    match aircraft with
    | some ac => !ac.emergency
    | none => false
  else if alert.type = "altitude_deviation" then
    match aircraft with
    | some ac => ac.altitude_deviation_resolved.getD false
    | none => false
  else if alert.type = "vfr_intrusion" then
    match aircraft with
    | some ac => ac.vfr_resolved.getD false
    | none => false
  else false

/-- `BaseScenario._check_alert_resolution`: fold over a snapshot of the
active set, resolving each alert whose underlying condition has
reverted. -/
def check_alert_resolution (s : State) : State × List String :=
  s.active_alerts.foldl (fun acc p =>
    if shouldAutoResolve acc.1 p.2 then
      ((resolve_alert acc.1 p.1).2, acc.2 ++ [p.1])
    else acc) (s, [])

/-- `BaseScenario._check_alert_reemission`: for condition 1 only, re-emit
every unacknowledged active alert at least 15 s past its last emission,
with audio suppressed on the re-emitted copy. -/
def check_alert_reemission (s : State) : State × List Alert :=
  if s.condition ≠ 1 then (s, [])
  else
    let step := fun (acc : List (String × Alert) × List Alert)
        (p : String × Alert) =>
      let alert := p.2
      if alert.acknowledged_at ≠ none then (acc.1 ++ [p], acc.2)
      else
        let last_emitted := alert.last_emitted_at.getD alert.generated_at
        if 15 ≤ s.elapsed_time - last_emitted then
          let a2 := { alert with last_emitted_at := some s.elapsed_time,
                                 reemit_count := some (alert.reemit_count.getD 0 + 1) }
          let reemit := { a2 with is_reemit := some true,
                                  suppress_audio := some true }
          (acc.1 ++ [(p.1, a2)], acc.2 ++ [reemit])
        else (acc.1 ++ [p], acc.2)
    let folded := s.active_alerts.foldl step ([], [])
    ({ s with active_alerts := folded.1 }, folded.2)

/-- The dict returned by a normal `update()` tick. -/
structure TickData where
  elapsed_time : ℚ
  current_phase : ℕ
  phase_description : String
  aircraft : List (String × Aircraft)
  triggered_events : List ScenarioEvent
  triggered_probes : List SAGATProbe
  measurements : List (String × Measurement)
  active_alerts : List Alert
  reemit_alerts : List Alert
  resolved_alerts : List String
deriving DecidableEq

/-- The return value of `update()`: either the short status dict (not
started / paused) or a full tick dict. -/
inductive UpdateResult where
  | status (s : String)
  | tick (d : TickData)
deriving DecidableEq

/-- Whether an `update()` return value is a full tick dict. -/
def UpdateResult.isTick : UpdateResult → Bool
  | .status _ => false
  | .tick _ => true

/-- `BaseScenario.update`. The wall-clock elapsed time
`(now - start_time).total_seconds()` is the caller-visible input
`now_elapsed`; `phaseUpd` stands for the abstract
`_update_current_phase` hook each scenario subclass implements; the trig
oracles are as in `update_aircraft_positions`. There is no input
validation: the new elapsed time is adopted unconditionally and `dt` may
be negative. -/
def update (h : Handlers) (phaseUpd : State → State)
    (sinDeg cosDeg : ℤ → ℚ) (s : State) (now_elapsed : ℚ) :
    UpdateResult × State :=
  if s.started = false ∨ s.paused = true then
    (UpdateResult.status (if s.paused then "paused" else "not_started"), s)
  else
    let s1 := { s with elapsed_time := now_elapsed }
    let dt := s1.elapsed_time - s1.last_elapsed_time
    let s2 := { s1 with last_elapsed_time := s1.elapsed_time }
    let r3 := check_and_trigger_events h s2
    let r4 := check_sagat_probes r3.1
    let s5 := update_aircraft_positions sinDeg cosDeg dt r4.1
    let s6 := phaseUpd s5
    let r7 := check_alert_resolution s6
    let r8 := check_alert_reemission r7.1
    let s8 := r8.1
    (UpdateResult.tick
      { elapsed_time := s8.elapsed_time,
        current_phase := s8.current_phase,
        phase_description :=
          if s8.current_phase < s8.phase_descriptions.length then
            s8.phase_descriptions.getD s8.current_phase ""
          else "Complete",
        aircraft := s8.aircraft,
        triggered_events := r3.2,
        triggered_probes := r4.2,
        measurements := s8.measurements,
        active_alerts := s8.active_alerts.map (·.2),
        reemit_alerts := r8.2,
        resolved_alerts := r7.2 }, s8)

end Scenario

namespace Sim

/-- `EARTH_RADIUS_NM = 3440.065`. -/
def EARTH_RADIUS_NM : ℚ := 3440065 / 1000

/-- `MIN_HORIZONTAL_SEPARATION_NM = 3.0`. -/
def MIN_HORIZONTAL_SEPARATION_NM : ℚ := 3

/-- `MIN_VERTICAL_SEPARATION_FT = 1000`. -/
def MIN_VERTICAL_SEPARATION_FT : ℚ := 1000

/-- `simulation.aircraft.Aircraft` (geographic coordinates); the
wall-clock `created_at`/`updated_at` timestamps are elided. -/
structure Aircraft where
  callsign : String
  lat : ℚ
  lon : ℚ
  altitude : ℚ
  heading : ℚ
  speed : ℚ
  target_altitude : Option ℚ := none
  target_heading : Option ℚ := none
  target_speed : Option ℚ := none
  vertical_rate : ℚ := 0
  emergency : Bool := false
  comm_loss : Bool := false
  aircraft_type : String := "B738"
deriving DecidableEq

/-- `simulation.aircraft.Conflict`. -/
structure Conflict where
  callsign1 : String
  callsign2 : String
  horizontal_separation_nm : ℚ
  vertical_separation_ft : ℚ
  time_to_closest : ℚ
  severity : String
deriving DecidableEq

/-- The `math` library calls `physics.py` / `sim_engine.py` make, as
oracles over float-valued (hence rational) inputs. `pi` models the float
constant `math.pi`. -/
structure FloatOps where
  pi : ℚ
  sin : ℚ → ℚ
  cos : ℚ → ℚ
  sqrt : ℚ → ℚ
  atan2 : ℚ → ℚ → ℚ

/-- `math.radians(d) = d * (pi / 180)`. -/
def radians (F : FloatOps) (d : ℚ) : ℚ := d * (F.pi / 180)

/-- Python's `round(x, 2)` (round-half-even on floats, modelled with
`round`; the claims below only need it to be a function of its input). -/
def pyRound2 (x : ℚ) : ℚ := (round (x * 100) : ℤ) / 100

/-- Python's `round(x, 0)`. -/
def pyRound0 (x : ℚ) : ℚ := ((round x : ℤ) : ℚ)

/-- `calculate_distance_nm` (the haversine distance, identical in
`physics.py` and `sim_engine.py`). -/
def calculate_distance_nm (F : FloatOps) (lat1 lon1 lat2 lon2 : ℚ) : ℚ :=
  let lat1_rad := radians F lat1
  let lat2_rad := radians F lat2
  let dlat := radians F (lat2 - lat1)
  let dlon := radians F (lon2 - lon1)
  let a := F.sin (dlat / 2) ^ 2 +
    F.cos lat1_rad * F.cos lat2_rad * F.sin (dlon / 2) ^ 2
  let c := 2 * F.atan2 (F.sqrt a) (F.sqrt (1 - a))
  EARTH_RADIUS_NM * c

/-- `check_conflict` (identical in `physics.py` and `sim_engine.py`):
flag a conflict when horizontal separation is below 3 nm and vertical
separation below 1000 ft, with severity bucketed by how far below the
minima the pair is. -/
def check_conflict (F : FloatOps) (ac1 ac2 : Aircraft) : Option Conflict :=
  let horizontal_sep := calculate_distance_nm F ac1.lat ac1.lon ac2.lat ac2.lon
  let vertical_sep := |ac1.altitude - ac2.altitude|
  if horizontal_sep < MIN_HORIZONTAL_SEPARATION_NM ∧
      vertical_sep < MIN_VERTICAL_SEPARATION_FT then
    let severity :=
      if horizontal_sep < 1 ∧ vertical_sep < 500 then "critical"
      else if horizontal_sep < 2 ∧ vertical_sep < 750 then "alert"
      else "warning"
    some { callsign1 := ac1.callsign, callsign2 := ac2.callsign,
           horizontal_separation_nm := pyRound2 horizontal_sep,
           vertical_separation_ft := pyRound0 vertical_sep,
           time_to_closest := 0, severity := severity }
  else none

/-- Swap the callsign fields of a conflict record, keeping the separations
and severity. -/
def swapCallsigns (c : Conflict) : Conflict :=
  { c with callsign1 := c.callsign2, callsign2 := c.callsign1 }

end Sim

section DictLemmas

variable {α : Type}

theorem setEntry_length (l : List (String × α)) (k : String) (v : α) :
    (setEntry l k v).length = l.length := by
  induction l with
  | nil => rfl
  | cons p rest ih =>
    simp only [setEntry]
    split
    · simp
    · simpa using ih

theorem setEntry_setEntry (l : List (String × α)) (k : String) (v w : α) :
    setEntry (setEntry l k v) k w = setEntry l k w := by
  induction l with
  | nil => rfl
  | cons p rest ih =>
    simp only [setEntry]
    split
    · simp [setEntry]
    · simp only [setEntry]
      split
      · simp_all
      · rw [ih]

theorem setEntry_append_of_not_mem (l l2 : List (String × α)) (k : String)
    (v : α) (hnk : l.any (fun p => decide (p.1 = k)) = false) :
    setEntry (l ++ l2) k v = l ++ setEntry l2 k v := by
  induction l with
  | nil => rfl
  | cons p rest ih =>
    simp only [List.any_cons, Bool.or_eq_false_iff, decide_eq_false_iff_not] at hnk
    show setEntry (p :: (rest ++ l2)) k v = _
    simp only [setEntry]
    split
    · exact absurd (by assumption) hnk.1
    · show p :: setEntry (rest ++ l2) k v = _
      rw [ih hnk.2]
      rfl

theorem setEntry_dictSet (l : List (String × α)) (k : String) (v w : α) :
    setEntry (dictSet l k v) k w = dictSet l k w := by
  unfold dictSet
  split
  · exact setEntry_setEntry l k v w
  · rename_i hmem
    rw [setEntry_append_of_not_mem l [(k, v)] k w (Bool.eq_false_iff.mpr hmem)]
    simp [setEntry]

theorem lookupD_setEntry_mem (l : List (String × α)) (k : String) (v : α)
    (hmem : l.any (fun p => decide (p.1 = k)) = true) :
    lookupD (setEntry l k v) k = some v := by
  induction l with
  | nil => simp at hmem
  | cons p rest ih =>
    simp only [setEntry]
    split
    · simp only [lookupD]
      rw [List.find?_cons_of_pos _ (by simp)]
      rfl
    · rename_i hne
      simp only [List.any_cons, Bool.or_eq_true_iff, decide_eq_true_eq] at hmem
      rcases hmem with hmem | hmem
      · exact absurd hmem hne
      · simp only [lookupD]
        rw [List.find?_cons_of_neg _ (by simpa using hne)]
        exact ih hmem

theorem find?_eq_none_of_all_false {p : String × α → Bool}
    (l : List (String × α)) (hall : ∀ x ∈ l, p x = false) :
    l.find? p = none := by
  rw [List.find?_eq_none]
  intro x hx
  simp [hall x hx]

theorem lookupD_dictSet (l : List (String × α)) (k : String) (v : α) :
    lookupD (dictSet l k v) k = some v := by
  unfold dictSet
  split
  · rename_i hmem
    exact lookupD_setEntry_mem l k v hmem
  · rename_i hmem
    have hall : ∀ x ∈ l, (fun p => decide (p.1 = k)) x = false := by
      intro x hx
      by_contra hc
      exact hmem (List.any_eq_true.mpr ⟨x, hx, by simpa using hc⟩)
    unfold lookupD
    rw [List.find?_append, find?_eq_none_of_all_false l hall]
    rw [List.find?_cons_of_pos _ (by simp)]
    rfl

theorem find?_setEntry_of_all_false {q : String × α → Bool}
    (l : List (String × α)) (k : String) (v : α)
    (hall : ∀ x ∈ l, q x = false) (hq : q (k, v) = true)
    (hmem : l.any (fun p => decide (p.1 = k)) = true) :
    (setEntry l k v).find? q = some (k, v) := by
  induction l with
  | nil => simp at hmem
  | cons p rest ih =>
    simp only [setEntry]
    split
    · exact List.find?_cons_of_pos _ hq
    · rename_i hne
      simp only [List.any_cons, Bool.or_eq_true_iff, decide_eq_true_eq] at hmem
      rcases hmem with hmem | hmem
      · exact absurd hmem hne
      · rw [List.find?_cons_of_neg _ (by simp [hall p (by simp)])]
        exact ih (fun x hx => hall x (by simp [hx])) hmem

theorem find?_dictSet_of_all_false {q : String × α → Bool}
    (l : List (String × α)) (k : String) (v : α)
    (hall : ∀ x ∈ l, q x = false) (hq : q (k, v) = true) :
    (dictSet l k v).find? q = some (k, v) := by
  unfold dictSet
  split
  · rename_i hmem
    exact find?_setEntry_of_all_false l k v hall hq hmem
  · rw [List.find?_append, find?_eq_none_of_all_false l hall]
    rw [List.find?_cons_of_pos _ hq]
    rfl

theorem countP_setEntry_le {q : String × α → Bool}
    (l : List (String × α)) (k : String) (v : α) :
    (setEntry l k v).countP q ≤ l.countP q + (if q (k, v) then 1 else 0) := by
  induction l with
  | nil => simp [setEntry]
  | cons p rest ih =>
    simp only [setEntry]
    split
    · simp only [List.countP_cons]
      split <;> split <;> omega
    · simp only [List.countP_cons]
      omega

theorem countP_setEntry_of_all_false {q : String × α → Bool}
    (l : List (String × α)) (k : String) (v : α)
    (hall : ∀ x ∈ l, q x = false)
    (hmem : l.any (fun p => decide (p.1 = k)) = true) :
    (setEntry l k v).countP q = (if q (k, v) then 1 else 0) := by
  induction l with
  | nil => simp at hmem
  | cons p rest ih =>
    have hrest : rest.countP q = 0 := by
      rw [List.countP_eq_zero]
      intro x hx
      simp [hall x (by simp [hx])]
    simp only [setEntry]
    split
    · simp [List.countP_cons, hrest]
    · rename_i hne
      simp only [List.any_cons, Bool.or_eq_true_iff, decide_eq_true_eq] at hmem
      rcases hmem with hmem | hmem
      · exact absurd hmem hne
      · simp only [List.countP_cons, hall p (by simp),
          ih (fun x hx => hall x (by simp [hx])) hmem]
        simp

theorem countP_dictSet_of_all_false {q : String × α → Bool}
    (l : List (String × α)) (k : String) (v : α)
    (hall : ∀ x ∈ l, q x = false) :
    (dictSet l k v).countP q = (if q (k, v) then 1 else 0) := by
  have hzero : l.countP q = 0 := by
    rw [List.countP_eq_zero]
    intro x hx
    simp [hall x hx]
  unfold dictSet
  split
  · rename_i hmem
    exact countP_setEntry_of_all_false l k v hall hmem
  · simp [List.countP_append, hzero, List.countP_cons]

theorem countP_setEntry_of_lookup_le {q : String × α → Bool}
    (l : List (String × α)) (k : String) (v w : α)
    (hl : lookupD l k = some w) (himp : q (k, v) = true → q (k, w) = true) :
    (setEntry l k v).countP q ≤ l.countP q := by
  induction l with
  | nil => simp [setEntry]
  | cons p rest ih =>
    simp only [setEntry]
    split
    · rename_i hk
      simp only [lookupD] at hl
      rw [List.find?_cons_of_pos _ (by simpa using hk)] at hl
      simp only [Option.map_some', Option.some.injEq] at hl
      have hpv : p = (k, w) := by
        cases p
        simp only [Prod.mk.injEq]
        exact ⟨hk, hl⟩
      simp only [List.countP_cons, hpv]
      by_cases hqv : q (k, v) = true
      · simp [hqv, himp hqv]
      · simp only [Bool.not_eq_true] at hqv
        simp only [hqv]
        simp only [Bool.false_eq_true, if_false, Nat.add_zero]
        exact Nat.le_add_right _ _
    · rename_i hk
      simp only [lookupD] at hl
      rw [List.find?_cons_of_neg _ (by simpa using hk)] at hl
      simp only [List.countP_cons]
      have := ih hl
      omega

theorem lookupD_isSome_iff (l : List (String × α)) (k : String) :
    (lookupD l k).isSome = true ↔ ∃ p ∈ l, p.1 = k := by
  unfold lookupD
  rw [Option.isSome_map']
  rw [List.find?_isSome]
  simp

end DictLemmas

section MapLemmas

variable {α β : Type}

theorem lookupD_map_keyed (l : List (String × α)) (g : String → α → β)
    (k : String) :
    lookupD (l.map (fun p => (p.1, g p.1 p.2))) k = (lookupD l k).map (g k) := by
  unfold lookupD
  rw [List.find?_map]
  have hcomp : ((fun p : String × β => decide (p.1 = k)) ∘
      (fun p : String × α => (p.1, g p.1 p.2))) =
      (fun p : String × α => decide (p.1 = k)) := rfl
  rw [hcomp]
  cases hf : l.find? (fun p => decide (p.1 = k)) with
  | none => rfl
  | some p =>
    have hk := List.find?_some hf
    simp only [decide_eq_true_eq] at hk
    simp [hk]

end MapLemmas

/-- Claim C9. Recording a single interaction marks as detected every live
measurement whose key string contains the interaction target as a
substring, regardless of the interaction type and of the measurement's
own `target` field: the first matching entry at key `k` gets
`detected_time := now` and `detection_delay := now - event-time chain`. -/
theorem interaction_detects_all_substring_matches
    (s : Scenario.State) (interaction_type target k : String)
    (m : Scenario.Measurement)
    (hfind : lookupD s.measurements k = some m)
    (hsub : pyIn target k = true)
    (hdet : m.detected_time = none) :
    ∃ m2, lookupD (Scenario.record_interaction s interaction_type target).measurements k
        = some m2 ∧
      m2.detected_time = some s.elapsed_time ∧
      m2.detection_delay = some (s.elapsed_time - Scenario.eventTimeChain m) := by
  unfold Scenario.record_interaction
  unfold Scenario.check_measurement_resolution
  simp only
  rw [lookupD_map_keyed, hfind]
  refine ⟨_, rfl, ?_⟩
  unfold Scenario.cmrUpdate
  rw [hsub]
  simp only [Bool.true_eq_false, if_false, hdet, reduceIte]
  split <;> simp

/-- Witness for C9 at a concrete state: an interaction against callsign
`AAL1` also marks the measurement of `AAL119` (whose key contains `AAL1`)
detected, with an interaction type in neither classification list. -/
theorem interaction_detects_all_substring_matches_witness :
    (lookupD ([("AAL119_comm_loss_detection",
        ({ event_type := some "comm_loss", target := some "AAL119",
           event_time := some 156 } : Scenario.Measurement))] :
        List (String × Scenario.Measurement)) "AAL119_comm_loss_detection"
      = some { event_type := some "comm_loss", target := some "AAL119",
               event_time := some 156 }) ∧
    (pyIn "AAL1" "AAL119_comm_loss_detection" = true) ∧
    (∃ m2, lookupD (Scenario.record_interaction
        { elapsed_time := 170,
          measurements := [("AAL119_comm_loss_detection",
            { event_type := some "comm_loss", target := some "AAL119",
              event_time := some 156 })] } "typing" "AAL1").measurements
        "AAL119_comm_loss_detection" = some m2 ∧
      m2.detected_time = some (170 : ℚ) ∧
      m2.detection_delay = some ((170 : ℚ) - Scenario.eventTimeChain
        { event_type := some "comm_loss", target := some "AAL119",
          event_time := some 156 })) :=
  ⟨by decide, by decide,
   interaction_detects_all_substring_matches
     { elapsed_time := 170,
       measurements := [("AAL119_comm_loss_detection",
         { event_type := some "comm_loss", target := some "AAL119",
           event_time := some 156 })] }
     "typing" "AAL1" "AAL119_comm_loss_detection"
     { event_type := some "comm_loss", target := some "AAL119",
       event_time := some 156 }
     (by decide) (by decide) (by decide)⟩

/-- The concrete scenario state used to exhibit claim C7's failing input:
one live comm-loss measurement for `AAL119`, registered at `t = 156`,
with the clock at `170`. -/
def c7s : Scenario.State :=
  { elapsed_time := 170,
    measurements := [("AAL119_comm_loss_detection",
      { event_type := some "comm_loss", target := some "AAL119",
        event_time := some 156 })] }

/-- Claim C7 (code behavior at the failing input). The source defines the
detection classification list but never consults it: an interaction of
type `typing` — in neither classification list — against a target with a
live measurement still sets `detected_time` (while, consistently with the
table, it does not set `resolved_time`). -/
theorem neither_class_interaction_still_detects :
    ("typing" ∉ Scenario.detection_interactions) ∧
    ("typing" ∉ Scenario.resolution_interactions) ∧
    ((lookupD (Scenario.record_interaction c7s "typing" "AAL119").measurements
        "AAL119_comm_loss_detection").map Scenario.Measurement.detected_time
      = some (some 170)) ∧
    ((lookupD (Scenario.record_interaction c7s "typing" "AAL119").measurements
        "AAL119_comm_loss_detection").map Scenario.Measurement.resolved_time
      = some none) := by decide

/-- Claim C6. For a measurement registered under the exact key
`{target}_{event_type}_detection` with `event_time = t0`:
`resolve_measurement` at kind `detected`/`resolved` writes the
corresponding timestamp and delay only when the timestamp was unset
(first-write-wins), returning `true` exactly when an update occurred;
it returns `false`, leaving the state unchanged, when the timestamp was
already set or when no measurement matches at all. -/
theorem resolve_measurement_first_write_wins
    (s : Scenario.State) (target event_type : String)
    (m : Scenario.Measurement) (t0 : ℚ)
    (hk : lookupD s.measurements (target ++ "_" ++ event_type ++ "_detection")
      = some m)
    (ht0 : m.event_time = some t0)
    (hle : t0 ≤ s.elapsed_time) :
    (m.detected_time = none →
      Scenario.resolve_measurement s target event_type "detected" =
        (true, { s with measurements :=
                   (setEntry s.measurements
                     (target ++ "_" ++ event_type ++ "_detection")
                     { m with detected_time := some s.elapsed_time,
                              detection_delay := some (s.elapsed_time - t0) }) }))
    ∧ (m.detected_time ≠ none →
      Scenario.resolve_measurement s target event_type "detected" = (false, s))
    ∧ (m.resolved_time = none →
      Scenario.resolve_measurement s target event_type "resolved" =
        (true, { s with measurements :=
                   (setEntry s.measurements
                     (target ++ "_" ++ event_type ++ "_detection")
                     { m with resolved_time := some s.elapsed_time,
                              resolution_delay := some (s.elapsed_time - t0) }) }))
    ∧ (m.resolved_time ≠ none →
      Scenario.resolve_measurement s target event_type "resolved" = (false, s))
    ∧ (∀ target2 event_type2 resolution_type,
        Scenario.resolveLookupKey s target2 event_type2 = none →
        Scenario.resolve_measurement s target2 event_type2 resolution_type
          = (false, s)) := by
  have hkey : Scenario.resolveLookupKey s target event_type
      = some (target ++ "_" ++ event_type ++ "_detection") := by
    unfold Scenario.resolveLookupKey
    simp only [hk]
  refine ⟨?_, ?_, ?_, ?_, ?_⟩
  · intro hdet
    unfold Scenario.resolve_measurement
    rw [hkey]
    simp only [hk, hdet, ht0, reduceIte]
    rfl
  · intro hdet
    unfold Scenario.resolve_measurement
    rw [hkey]
    simp only [hk, reduceIte]
    rw [if_neg hdet]
  · intro hres
    unfold Scenario.resolve_measurement
    rw [hkey]
    simp only [hk, hres, ht0, reduceIte]
    rfl
  · intro hres
    unfold Scenario.resolve_measurement
    rw [hkey]
    simp only [hk, reduceIte]
    rw [if_neg hres, if_neg (by decide : ¬("resolved" = "detected"))]
  · intro target2 event_type2 resolution_type hnone
    unfold Scenario.resolve_measurement
    rw [hnone]

/-- The concrete measurement used by C6's witness: registered at
`t0 = 100`. -/
def c6m : Scenario.Measurement :=
  { event_type := some "test_event", target := some "target1",
    event_time := some 100 }

/-- The concrete state used by C6's witness: the clock at `115`, one
measurement registered at `100`. -/
def c6s : Scenario.State :=
  { elapsed_time := 115,
    measurements := [("target1_test_event_detection", c6m)] }

/-- Witness for C6 at a concrete state: the measurement registered at
`t0 = 100` and detected at elapsed time `115` gets
`detection_delay = 15`. -/
theorem resolve_measurement_first_write_wins_witness :
    (lookupD c6s.measurements "target1_test_event_detection" = some c6m) ∧
    (c6m.event_time = some 100) ∧ ((100 : ℚ) ≤ c6s.elapsed_time) ∧
    (c6m.detected_time = none →
      Scenario.resolve_measurement c6s "target1" "test_event" "detected" =
        (true, { c6s with measurements :=
                   (setEntry c6s.measurements "target1_test_event_detection"
                     { c6m with detected_time := some c6s.elapsed_time,
                                detection_delay :=
                                  some (c6s.elapsed_time - 100) }) })) :=
  ⟨by decide, by decide, by decide,
   (resolve_measurement_first_write_wins c6s "target1" "test_event" c6m 100
     (by decide) (by decide) (by decide)).1⟩

/-- Claim C10. `resolve_alert` returns `true` exactly when the alert id is
in the active set; on success the alert entry is removed from the active
set, every history record with that id is marked resolved with
`resolved_at` set to the current elapsed time, and nothing else changes;
on failure the state is completely unchanged. -/
theorem resolve_alert_exact_behavior (s : Scenario.State) (alert_id : String) :
    ((Scenario.resolve_alert s alert_id).1 = true ↔
      ∃ p ∈ s.active_alerts, p.1 = alert_id)
    ∧ ((∃ p ∈ s.active_alerts, p.1 = alert_id) →
        (Scenario.resolve_alert s alert_id).2 =
          { s with
            active_alerts :=
              (s.active_alerts.filter (fun p => !(decide (p.1 = alert_id)))),
            alert_history :=
              (s.alert_history.map (fun h =>
                if h.alert_id = alert_id then
                  { h with resolved_at := some s.elapsed_time,
                           status := some "resolved" }
                else h)) })
    ∧ (¬ (∃ p ∈ s.active_alerts, p.1 = alert_id) →
        (Scenario.resolve_alert s alert_id).2 = s) := by
  have hiff := lookupD_isSome_iff s.active_alerts alert_id
  unfold Scenario.resolve_alert
  cases hl : lookupD s.active_alerts alert_id with
  | none =>
    rw [hl] at hiff
    simp only [Option.isSome_none, Bool.false_eq_true, false_iff] at hiff
    exact ⟨by simp [hiff], fun h => absurd h hiff, fun _ => rfl⟩
  | some a =>
    rw [hl] at hiff
    simp only [Option.isSome_some, true_iff] at hiff
    exact ⟨by simp [hiff], fun _ => rfl, fun h => absurd hiff h⟩

/-- The concrete alert used by C10's witness. -/
def c10a : Scenario.Alert :=
  { alert_id := "e1", type := "emergency", target := "AAL1",
    priority := "high", message := "engine fire", elapsed_time := 7,
    affected_region := { rtype := "sector_wide" }, related_traffic := [],
    required_action := "", generated_at := 7 }

/-- The concrete state used by C10's witness: one active alert `e1` and
its generation history record, with the clock at `42`. -/
def c10s : Scenario.State :=
  { elapsed_time := 42, active_alerts := [("e1", c10a)],
    alert_history := [{ c10a with status := some "generated" }] }

/-- Witness for C10 at a concrete state: resolving the one active alert
removes it from the active set and marks its history record resolved at
the current elapsed time. -/
theorem resolve_alert_exact_behavior_witness :
    (∃ p ∈ c10s.active_alerts, p.1 = "e1") ∧
    (Scenario.resolve_alert c10s "e1").2 =
      { c10s with
        active_alerts :=
          (c10s.active_alerts.filter (fun p => !(decide (p.1 = "e1")))),
        alert_history :=
          (c10s.alert_history.map (fun h =>
            if h.alert_id = "e1" then
              { h with resolved_at := some c10s.elapsed_time,
                       status := some "resolved" }
            else h)) } :=
  ⟨by decide, (resolve_alert_exact_behavior c10s "e1").2.1 (by decide)⟩

/-- The concrete state used for claim C2: a started, unpaused scenario
whose previously recorded elapsed time is `10`. -/
def c2s : Scenario.State :=
  { started := true, elapsed_time := 10, last_elapsed_time := 10 }

/-- Counterexample to claim C2 as stated: calling `update` with a new
elapsed time `5 < 10` is not rejected with a non-monotonic-time error —
no such check exists — but is processed as a completely normal tick
(with `dt = -5`), returning the full tick dict and adopting the smaller
elapsed time. -/
theorem out_of_order_update_processed_normally :
    Scenario.update (fun _ => none) id (fun _ => 0) (fun _ => 0) c2s 5 =
      (Scenario.UpdateResult.tick
        { elapsed_time := 5, current_phase := 0,
          phase_description := "Complete", aircraft := [],
          triggered_events := [], triggered_probes := [],
          measurements := [], active_alerts := [], reemit_alerts := [],
          resolved_alerts := [] },
       { c2s with elapsed_time := 5, last_elapsed_time := 5 }) := by decide

/-- Claim C2 as amended. `update()` performs no monotonicity validation:
whenever the scenario is started and not paused, every call — including
one whose new elapsed time is strictly smaller than the previously
recorded one — is processed as a normal tick (never an error value), and
the smaller time is adopted as the new elapsed time. -/
theorem update_never_rejects (h : Scenario.Handlers)
    (phaseUpd : Scenario.State → Scenario.State)
    (sinDeg cosDeg : ℤ → ℚ) (s : Scenario.State) (t : ℚ)
    (hstart : s.started = true) (hpause : s.paused = false) :
    (Scenario.update h phaseUpd sinDeg cosDeg s t).1.isTick = true := by
  unfold Scenario.update
  rw [hstart, hpause]
  simp only [Bool.true_eq_false, Bool.false_eq_true, or_self, if_false]
  rfl

/-- Witness for the amended C2 at a concrete input (a strictly smaller
new elapsed time). -/
theorem update_never_rejects_witness :
    (c2s.started = true) ∧ (c2s.paused = false) ∧
    (Scenario.update (fun _ => none) id (fun _ => 0) (fun _ => 0)
      c2s 5).1.isTick = true :=
  ⟨rfl, rfl,
   update_never_rejects (fun _ => none) id (fun _ => 0) (fun _ => 0)
     c2s 5 rfl rfl⟩

/-- Claim C5. With a blocking, unacknowledged modal alert active, no
active weather/system alert, and no resolved ML prediction covering
(weather, system), `generate_alert("weather", "system", {priority:
"medium"})` returns `none` and appends exactly one suppression record
with reason `blocking_modal_active`; the active set (and everything else
except `suppressed_alerts`) is unchanged. -/
theorem blocking_modal_suppresses_medium_weather
    (s : Scenario.State) (d : Scenario.AlertData)
    (hml : ("system_weather" : String) ∉ s.resolved_predictions)
    (hfresh : Scenario.find_similar_alert s.active_alerts "weather" "system" = none)
    (hmodal : Scenario.has_blocking_modal s.active_alerts = true)
    (hpri : d.priority = some "medium") :
    Scenario.generate_alert s "weather" "system" d =
      (none, Scenario.addSuppressed s
        ("weather_system_" ++ toString (pyInt s.elapsed_time))
        "weather" "system" "medium" "blocking_modal_active") := by
  have hshow : Scenario.should_show_real_alert s "weather" "system" = true := by
    unfold Scenario.should_show_real_alert
    have hstr : ("system" ++ "_" ++ "weather" : String) = "system_weather" := rfl
    rw [hstr]
    simpa using hml
  unfold Scenario.generate_alert
  simp only [hshow, Bool.true_eq_false, and_false, if_false, hfresh, hpri,
    Option.getD_some, hmodal]
  have hid : ("weather" ++ "_" ++ "system" ++ "_" ++
      toString (pyInt s.elapsed_time) : String) =
      "weather_system_" ++ toString (pyInt s.elapsed_time) := by
    rw [String.append_assoc, String.append_assoc]
    rfl
  rw [if_pos ⟨trivial, by decide, by decide⟩, hid]

/-- The blocking modal alert of C5's witness (condition-1 style:
`blocking = true`, unacknowledged). -/
def c5a : Scenario.Alert :=
  { alert_id := "m1", type := "emergency", target := "UAL2",
    priority := "critical", message := "", elapsed_time := 3,
    affected_region := { rtype := "sector_wide" }, related_traffic := [],
    required_action := "", generated_at := 3, blocking := some true }

/-- The concrete state of C5's witness: a blocking modal active, nothing
else. -/
def c5s : Scenario.State :=
  { elapsed_time := 20, active_alerts := [("m1", c5a)] }

/-- Witness for C5 at a concrete state. -/
theorem blocking_modal_suppresses_medium_weather_witness :
    (("system_weather" : String) ∉ c5s.resolved_predictions) ∧
    (Scenario.find_similar_alert c5s.active_alerts "weather" "system" = none) ∧
    (Scenario.has_blocking_modal c5s.active_alerts = true) ∧
    (Scenario.generate_alert c5s "weather" "system" { priority := some "medium" } =
      (none, Scenario.addSuppressed c5s
        ("weather_system_" ++ toString (pyInt c5s.elapsed_time))
        "weather" "system" "medium" "blocking_modal_active")) :=
  ⟨by decide, by decide, by decide,
   blocking_modal_suppresses_medium_weather c5s { priority := some "medium" }
     (by decide) (by decide) (by decide) rfl⟩

/-- The haversine distance is symmetric in its two endpoints, for any
sine oracle that is odd (as `math.sin` is). -/
theorem calculate_distance_nm_symm (F : Sim.FloatOps)
    (hsin : ∀ x, F.sin (-x) = -F.sin x) (lat1 lon1 lat2 lon2 : ℚ) :
    Sim.calculate_distance_nm F lat2 lon2 lat1 lon1 =
      Sim.calculate_distance_nm F lat1 lon1 lat2 lon2 := by
  simp only [Sim.calculate_distance_nm]
  have h1 : Sim.radians F (lat1 - lat2) = -(Sim.radians F (lat2 - lat1)) := by
    unfold Sim.radians
    ring
  have h2 : Sim.radians F (lon1 - lon2) = -(Sim.radians F (lon2 - lon1)) := by
    unfold Sim.radians
    ring
  have key : ∀ x : ℚ, F.sin (-x / 2) ^ 2 = F.sin (x / 2) ^ 2 := by
    intro x
    rw [neg_div, hsin]
    ring
  rw [h1, h2, key, key,
    mul_comm (F.cos (Sim.radians F lat2)) (F.cos (Sim.radians F lat1))]

/-- Claim C8. Pairwise conflict detection is symmetric: the swapped call
reports a conflict exactly when the original does, with the same
horizontal separation, vertical separation and severity (only the
callsign fields are interchanged); and a conflict is reported exactly
when the horizontal separation is below 3 nm and the vertical separation
below 1000 ft. -/
theorem check_conflict_symmetric (F : Sim.FloatOps)
    (hsin : ∀ x, F.sin (-x) = -F.sin x) (ac1 ac2 : Sim.Aircraft) :
    (Sim.check_conflict F ac2 ac1 =
      Option.map Sim.swapCallsigns (Sim.check_conflict F ac1 ac2))
    ∧ ((Sim.check_conflict F ac1 ac2).isSome = true ↔
        (Sim.calculate_distance_nm F ac1.lat ac1.lon ac2.lat ac2.lon <
            Sim.MIN_HORIZONTAL_SEPARATION_NM ∧
          |ac1.altitude - ac2.altitude| < Sim.MIN_VERTICAL_SEPARATION_FT)) := by
  have hd := calculate_distance_nm_symm F hsin ac1.lat ac1.lon ac2.lat ac2.lon
  have hv : |ac2.altitude - ac1.altitude| = |ac1.altitude - ac2.altitude| :=
    abs_sub_comm _ _
  constructor
  · simp only [Sim.check_conflict, hd, hv]
    by_cases hcond : (Sim.calculate_distance_nm F ac1.lat ac1.lon ac2.lat ac2.lon <
        Sim.MIN_HORIZONTAL_SEPARATION_NM ∧
        |ac1.altitude - ac2.altitude| < Sim.MIN_VERTICAL_SEPARATION_FT)
    · rw [if_pos hcond, if_pos hcond]
      simp [Sim.swapCallsigns]
    · rw [if_neg hcond, if_neg hcond]
      rfl
  · simp only [Sim.check_conflict]
    by_cases hcond : (Sim.calculate_distance_nm F ac1.lat ac1.lon ac2.lat ac2.lon <
        Sim.MIN_HORIZONTAL_SEPARATION_NM ∧
        |ac1.altitude - ac2.altitude| < Sim.MIN_VERTICAL_SEPARATION_FT)
    · rw [if_pos hcond]
      simpa using hcond
    · rw [if_neg hcond]
      simpa using hcond

/-- Witness for C8 at a concrete input: the identity as (odd) sine
oracle and two concrete aircraft. -/
theorem check_conflict_symmetric_witness :
    (∀ x : ℚ, (Sim.FloatOps.mk 3 id id id (fun y x => y + x)).sin (-x) =
      -(Sim.FloatOps.mk 3 id id id (fun y x => y + x)).sin x) ∧
    (Sim.check_conflict (Sim.FloatOps.mk 3 id id id (fun y x => y + x))
        { callsign := "B", lat := 1, lon := 2, altitude := 30000,
          heading := 0, speed := 400 }
        { callsign := "A", lat := 0, lon := 0, altitude := 30200,
          heading := 90, speed := 450 } =
      Option.map Sim.swapCallsigns
        (Sim.check_conflict (Sim.FloatOps.mk 3 id id id (fun y x => y + x))
          { callsign := "A", lat := 0, lon := 0, altitude := 30200,
            heading := 90, speed := 450 }
          { callsign := "B", lat := 1, lon := 2, altitude := 30000,
            heading := 0, speed := 400 })) :=
  ⟨fun _ => rfl,
   (check_conflict_symmetric (Sim.FloatOps.mk 3 id id id (fun y x => y + x))
     (fun _ => rfl)
     { callsign := "A", lat := 0, lon := 0, altitude := 30200,
       heading := 90, speed := 450 }
     { callsign := "B", lat := 1, lon := 2, altitude := 30000,
       heading := 0, speed := 400 }).1⟩

namespace Scenario

theorem build_alert_fields (s : State) (ty tgt : String) (d : AlertData)
    (aid pri : String) :
    (build_alert s ty tgt d aid pri).type = ty ∧
    (build_alert s ty tgt d aid pri).target = tgt ∧
    (build_alert s ty tgt d aid pri).alert_id = aid ∧
    (build_alert s ty tgt d aid pri).priority = pri ∧
    (build_alert s ty tgt d aid pri).update_count = none := by
  unfold build_alert
  split_ifs <;> exact ⟨rfl, rfl, rfl, rfl, rfl⟩

theorem generate_alert_creation (s : State) (ty tgt : String)
    (d : AlertData) (a : Alert) (st1 : State)
    (hfresh : find_similar_alert s.active_alerts ty tgt = none)
    (h1 : generate_alert s ty tgt d = (some a, st1)) :
    a = build_alert s ty tgt d
      (ty ++ "_" ++ tgt ++ "_" ++ toString (pyInt s.elapsed_time))
      (d.priority.getD "medium") ∧
    st1 = { s with
      active_alerts := dictSet s.active_alerts
        (ty ++ "_" ++ tgt ++ "_" ++ toString (pyInt s.elapsed_time)) a,
      alert_history := s.alert_history ++ [{ a with status := some "generated" }] } := by
  unfold generate_alert at h1
  split at h1
  · simp at h1
  · simp only [hfresh] at h1
    split at h1
    · simp at h1
    · split at h1
      · simp at h1
      · simp only [Prod.mk.injEq, Option.some.injEq] at h1
        obtain ⟨ha, hst⟩ := h1
        exact ⟨ha.symm, by rw [← hst, ha]⟩

theorem update_alert_spec (s : State) (aid : String) (d : AlertData)
    (a : Alert) (hl : lookupD s.active_alerts aid = some a) :
    ∃ a3, update_alert s aid d =
        (some a3, { s with active_alerts := setEntry s.active_alerts aid a3 }) ∧
      a3.update_count = some (a.update_count.getD 0 + 1) ∧
      a3.type = a.type ∧ a3.target = a.target ∧
      a3.message = (match d.message with | some msg => msg | none => a.message) ∧
      a3.priority = (if priority_order (d.priority.getD "medium") >
          priority_order a.priority then d.priority.getD "medium"
        else a.priority) ∧
      a3.updated_at = some s.elapsed_time := by
  unfold update_alert
  rw [hl]
  refine ⟨_, rfl, ?_, ?_, ?_, ?_, ?_, ?_⟩
  · cases hm : d.message <;> simp only [hm] <;> first | rfl | (split <;> rfl)
  · cases hm : d.message <;> simp only [hm] <;> first | rfl | (split <;> rfl)
  · cases hm : d.message <;> simp only [hm] <;> first | rfl | (split <;> rfl)
  · cases hm : d.message <;> simp only [hm] <;> first | rfl | (split <;> rfl)
  · cases hm : d.message <;> simp only [hm] <;> first | rfl | (split <;> rfl)
  · cases hm : d.message <;> simp only [hm] <;> first | rfl | (split <;> rfl)

end Scenario

/-- Claim C3. If a first `generate_alert(ty, tgt, d1)` call created a fresh
active alert `a` (no active (ty, tgt) alert existed, and no resolved ML
prediction covers (ty, tgt)), then a second call with the same (ty, tgt)
updates that alert in place: it returns an alert with `update_count = 1`,
replaces the message when `d2` carries one, raises the priority only when
the new priority is strictly higher, leaves the active set the same size
— exactly one active (ty, tgt) alert — and appends nothing to the
history. -/
theorem duplicate_generate_updates_in_place
    (s : Scenario.State) (ty tgt : String) (d1 d2 : Scenario.AlertData)
    (a : Scenario.Alert) (st1 : Scenario.State)
    (hfresh : Scenario.find_similar_alert s.active_alerts ty tgt = none)
    (hml : (tgt ++ "_" ++ ty) ∉ s.resolved_predictions)
    (h1 : Scenario.generate_alert s ty tgt d1 = (some a, st1)) :
    ∃ a2 st2, Scenario.generate_alert st1 ty tgt d2 = (some a2, st2) ∧
      a2.update_count = some 1 ∧
      a2.type = ty ∧ a2.target = tgt ∧
      a2.message = (match d2.message with | some msg => msg | none => a.message) ∧
      a2.priority = (if Scenario.priority_order (d2.priority.getD "medium") >
          Scenario.priority_order a.priority then d2.priority.getD "medium"
        else a.priority) ∧
      st2.active_alerts = setEntry st1.active_alerts a.alert_id a2 ∧
      st2.active_alerts.length = st1.active_alerts.length ∧
      st2.active_alerts.countP
        (fun p => decide (p.2.type = ty ∧ p.2.target = tgt)) = 1 ∧
      st2.alert_history = st1.alert_history := by
  obtain ⟨ha, hst1⟩ := Scenario.generate_alert_creation s ty tgt d1 a st1 hfresh h1
  obtain ⟨hty, htgt, haid, hpri, hupd⟩ := ha ▸ Scenario.build_alert_fields s ty tgt d1
    (ty ++ "_" ++ tgt ++ "_" ++ toString (pyInt s.elapsed_time))
    (d1.priority.getD "medium")
  have hall : ∀ x ∈ s.active_alerts,
      (fun p : String × Scenario.Alert =>
        decide (p.2.type = ty ∧ p.2.target = tgt)) x = false := by
    unfold Scenario.find_similar_alert at hfresh
    have := Option.map_eq_none'.mp hfresh
    intro x hx
    have := List.find?_eq_none.mp this x hx
    simpa using this
  have hq : (fun p : String × Scenario.Alert =>
      decide (p.2.type = ty ∧ p.2.target = tgt))
      (ty ++ "_" ++ tgt ++ "_" ++ toString (pyInt s.elapsed_time), a) = true := by
    simp [hty, htgt]
  have hfind1 : Scenario.find_similar_alert st1.active_alerts ty tgt = some a := by
    unfold Scenario.find_similar_alert
    rw [hst1]
    simp only
    rw [find?_dictSet_of_all_false s.active_alerts _ a hall hq]
    rfl
  have hlook : lookupD st1.active_alerts a.alert_id = some a := by
    rw [hst1, haid]
    simp only
    exact lookupD_dictSet s.active_alerts _ a
  have hcond1 : st1.condition = s.condition := by rw [hst1]
  have hpred1 : st1.resolved_predictions = s.resolved_predictions := by rw [hst1]
  have hshow : Scenario.should_show_real_alert st1 ty tgt = true := by
    unfold Scenario.should_show_real_alert
    rw [hpred1]
    simpa using hml
  obtain ⟨a3, hupdeq, h3upd, h3ty, h3tgt, h3msg, h3pri, _⟩ :=
    Scenario.update_alert_spec st1 a.alert_id d2 a hlook
  refine ⟨a3, { st1 with active_alerts := setEntry st1.active_alerts a.alert_id a3 },
    ?_, ?_, ?_, ?_, ?_, ?_, ?_, ?_, ?_, ?_⟩
  · unfold Scenario.generate_alert
    simp only [hshow, Bool.true_eq_false, and_false, if_false, hfind1]
    exact hupdeq
  · rw [h3upd, hupd]
    rfl
  · rw [h3ty, hty]
  · rw [h3tgt, htgt]
  · exact h3msg
  · exact h3pri
  · rfl
  · exact setEntry_length st1.active_alerts a.alert_id a3
  · show (setEntry st1.active_alerts a.alert_id a3).countP _ = 1
    rw [hst1, haid]
    simp only
    rw [setEntry_dictSet s.active_alerts _ a a3]
    rw [countP_dictSet_of_all_false s.active_alerts _ a3 hall]
    simp [h3ty, hty, h3tgt, htgt]
  · rfl

/-- The concrete initial state of C3's witness. -/
def c3s : Scenario.State := { elapsed_time := 10, condition := 2 }

/-- The data of the first `generate_alert` call in C3's witness. -/
def c3d1 : Scenario.AlertData :=
  { priority := some "medium", message := some "comm loss" }

/-- The data of the second `generate_alert` call in C3's witness: a new
message and a strictly higher priority. -/
def c3d2 : Scenario.AlertData :=
  { priority := some "high", message := some "comm loss again" }

/-- A placeholder alert (only used as the `Option.getD` default below;
the option is in fact always `some`). -/
def placeholderAlert : Scenario.Alert :=
  { alert_id := "", type := "", target := "", priority := "", message := "",
    elapsed_time := 0, affected_region := { rtype := "" },
    related_traffic := [], required_action := "", generated_at := 0 }

/-- The alert created by the first call of C3's witness. -/
def c3a : Scenario.Alert :=
  (Scenario.generate_alert c3s "comm_loss" "AAL1" c3d1).1.getD placeholderAlert

/-- The state after the first call of C3's witness. -/
def c3st1 : Scenario.State :=
  (Scenario.generate_alert c3s "comm_loss" "AAL1" c3d1).2

/-- Witness for C3 at a concrete input. -/
theorem duplicate_generate_updates_in_place_witness :
    (Scenario.find_similar_alert c3s.active_alerts "comm_loss" "AAL1" = none) ∧
    (("AAL1_comm_loss" : String) ∉ c3s.resolved_predictions) ∧
    (Scenario.generate_alert c3s "comm_loss" "AAL1" c3d1 = (some c3a, c3st1)) ∧
    (∃ a2 st2, Scenario.generate_alert c3st1 "comm_loss" "AAL1" c3d2 = (some a2, st2) ∧
      a2.update_count = some 1 ∧
      a2.type = "comm_loss" ∧ a2.target = "AAL1" ∧
      a2.message = (match c3d2.message with | some msg => msg | none => c3a.message) ∧
      a2.priority = (if Scenario.priority_order (c3d2.priority.getD "medium") >
          Scenario.priority_order c3a.priority then c3d2.priority.getD "medium"
        else c3a.priority) ∧
      st2.active_alerts = setEntry c3st1.active_alerts c3a.alert_id a2 ∧
      st2.active_alerts.length = c3st1.active_alerts.length ∧
      st2.active_alerts.countP
        (fun p => decide (p.2.type = "comm_loss" ∧ p.2.target = "AAL1")) = 1 ∧
      st2.alert_history = c3st1.alert_history) :=
  ⟨by decide, by decide, by decide,
   duplicate_generate_updates_in_place c3s "comm_loss" "AAL1" c3d1 c3d2
     c3a c3st1 (by decide) (by decide) (by decide)⟩

namespace Scenario

/-- Driver folding a sequence of `generate_alert` calls (type, target,
data) through the state. -/
def generate_many (s : State) : List (String × String × AlertData) → State
  | [] => s
  | c :: cs => generate_many (generate_alert s c.1 c.2.1 c.2.2).2 cs

theorem priority_order_le_one_of_not_crit (p : String)
    (h1 : p ≠ "critical") (h2 : p ≠ "high") : priority_order p ≤ 1 := by
  unfold priority_order
  split_ifs <;> simp_all

theorem not_crit_of_priority_order_le_one (p : String)
    (h : priority_order p ≤ 1) : p ≠ "critical" ∧ p ≠ "high" := by
  constructor <;> rintro rfl <;> simp [priority_order] at h

theorem countP_dictSet_le {q : String × Alert → Bool}
    (l : List (String × Alert)) (k : String) (v : Alert) :
    (dictSet l k v).countP q ≤ l.countP q + (if q (k, v) then 1 else 0) := by
  unfold dictSet
  split
  · exact countP_setEntry_le l k v
  · simp [List.countP_append, List.countP_cons]

theorem generate_alert_preserves_cap (s : State) (ty tgt : String)
    (d : AlertData)
    (hbound : nonCriticalActive s.active_alerts ≤ s.max_simultaneous_alerts) :
    nonCriticalActive (generate_alert s ty tgt d).2.active_alerts ≤
      s.max_simultaneous_alerts ∧
    (generate_alert s ty tgt d).2.max_simultaneous_alerts =
      s.max_simultaneous_alerts := by
  unfold generate_alert
  split
  · exact ⟨hbound, rfl⟩
  · split
    · rename_i existing hfound
      unfold update_alert
      cases hl : lookupD s.active_alerts existing.alert_id with
      | none => exact ⟨hbound, rfl⟩
      | some alert =>
        refine ⟨?_, rfl⟩
        refine le_trans (countP_setEntry_of_lookup_le s.active_alerts
          existing.alert_id _ alert hl ?_) hbound
        intro hq
        simp only [decide_eq_true_eq] at hq ⊢
        set new_priority := d.priority.getD "medium" with hnp
        by_cases hraise : priority_order new_priority >
            priority_order (match d.message with
              | some msg => { alert with message := msg }
              | none => alert).priority
        · rw [if_pos hraise] at hq
          have halert : (match d.message with
              | some msg => { alert with message := msg }
              | none => alert).priority = alert.priority := by
            cases d.message <;> rfl
          rw [halert] at hraise
          have hle1 : priority_order new_priority ≤ 1 :=
            priority_order_le_one_of_not_crit _ hq.1 hq.2
          exact not_crit_of_priority_order_le_one alert.priority (by omega)
        · rw [if_neg hraise] at hq
          have halert : (match d.message with
              | some msg => { alert with message := msg }
              | none => alert).priority = alert.priority := by
            cases d.message <;> rfl
          rw [halert] at hq
          exact hq
    · dsimp only
      split
      · exact ⟨hbound, rfl⟩
      · split
        · exact ⟨hbound, rfl⟩
        · rename_i hfound hmodal hcap
          refine ⟨?_, rfl⟩
          refine le_trans (countP_dictSet_le s.active_alerts _ _) ?_
          unfold nonCriticalActive at hbound hcap
          by_cases hcrit : d.priority.getD "medium" ≠ "critical" ∧
              d.priority.getD "medium" ≠ "high"
          · have hlt : s.active_alerts.countP (fun p =>
                decide (p.2.priority ≠ "critical" ∧ p.2.priority ≠ "high")) <
                s.max_simultaneous_alerts := by
              by_contra hge
              push_neg at hge
              exact hcap ⟨hge, hcrit.1, hcrit.2⟩
            split <;> omega
          · have hpri := (build_alert_fields s ty tgt d
              (ty ++ "_" ++ tgt ++ "_" ++ toString (pyInt s.elapsed_time))
              (d.priority.getD "medium")).2.2.2.1
            split
            · rename_i hdec
              dsimp only at hdec
              simp only [decide_eq_true_eq] at hdec
              rw [hpri] at hdec
              exact absurd hdec hcrit
            · omega

theorem generate_many_preserves_cap (calls : List (String × String × AlertData)) :
    ∀ s : State, nonCriticalActive s.active_alerts ≤ s.max_simultaneous_alerts →
      nonCriticalActive (generate_many s calls).active_alerts ≤
        s.max_simultaneous_alerts ∧
      (generate_many s calls).max_simultaneous_alerts =
        s.max_simultaneous_alerts := by
  induction calls with
  | nil => exact fun s h => ⟨h, rfl⟩
  | cons c cs ih =>
    intro s hbound
    obtain ⟨h1, h2⟩ := generate_alert_preserves_cap s c.1 c.2.1 c.2.2 hbound
    obtain ⟨h3, h4⟩ := ih (generate_alert s c.1 c.2.1 c.2.2).2 (h2 ▸ h1)
    exact ⟨by unfold generate_many; rw [← h2]; exact h3,
           by unfold generate_many; rw [h4, h2]⟩

end Scenario

/-- Claim C4. Starting from any state respecting the cap (the
`__init__` state does, with 0 active alerts against the default ceiling
of 3), no sequence of `generate_alert` calls ever pushes the number of
active non-critical alerts above `max_simultaneous_alerts`; and a
non-critical `generate_alert` call made while the ceiling is reached
(with no active duplicate to update, no blocking modal, and no resolved
ML prediction covering it) returns `none` and appends exactly one
suppression record with reason `max_alerts_reached`. -/
theorem alert_cap_never_exceeded
    (s : Scenario.State) (calls : List (String × String × Scenario.AlertData))
    (ty tgt : String) (d : Scenario.AlertData)
    (hbound : Scenario.nonCriticalActive s.active_alerts ≤
      s.max_simultaneous_alerts)
    (hp1 : d.priority.getD "medium" ≠ "critical")
    (hp2 : d.priority.getD "medium" ≠ "high")
    (hcap : s.max_simultaneous_alerts ≤
      Scenario.nonCriticalActive s.active_alerts)
    (hfresh : Scenario.find_similar_alert s.active_alerts ty tgt = none)
    (hmodal : Scenario.has_blocking_modal s.active_alerts = false)
    (hml : ¬(s.condition = 3 ∧ ty ≠ "ml_prediction" ∧
      d.is_prediction.getD false = false ∧
      Scenario.should_show_real_alert s ty tgt = false)) :
    (Scenario.nonCriticalActive
        (Scenario.generate_many s calls).active_alerts ≤
      s.max_simultaneous_alerts)
    ∧ Scenario.generate_alert s ty tgt d =
        (none, Scenario.addSuppressed s
          (ty ++ "_" ++ tgt ++ "_" ++ toString (pyInt s.elapsed_time))
          ty tgt (d.priority.getD "medium") "max_alerts_reached") := by
  constructor
  · exact (Scenario.generate_many_preserves_cap calls s hbound).1
  · unfold Scenario.generate_alert
    rw [if_neg hml]
    simp only [hfresh]
    rw [if_neg (by
      rintro ⟨hb, -⟩
      rw [hmodal] at hb
      exact Bool.false_ne_true hb)]
    rw [if_pos ⟨hcap, hp1, hp2⟩]

/-- One non-critical active alert for C4's witness. -/
def c4alert (i : ℕ) : Scenario.Alert :=
  { alert_id := "w" ++ toString i, type := "weather", target := "zone" ++ toString i,
    priority := "medium", message := "", elapsed_time := 0,
    affected_region := { rtype := "sector_wide" }, related_traffic := [],
    required_action := "", generated_at := 0 }

/-- The concrete state of C4's witness: three active non-critical alerts
(the default ceiling). -/
def c4s : Scenario.State :=
  { elapsed_time := 30, condition := 2,
    active_alerts := [("w1", c4alert 1), ("w2", c4alert 2), ("w3", c4alert 3)] }

/-- Witness for C4 at a concrete input. -/
theorem alert_cap_never_exceeded_witness :
    (Scenario.nonCriticalActive c4s.active_alerts ≤
      c4s.max_simultaneous_alerts) ∧
    (c4s.max_simultaneous_alerts ≤
      Scenario.nonCriticalActive c4s.active_alerts) ∧
    ((Scenario.nonCriticalActive
        (Scenario.generate_many c4s
          [("conflict", "AAL3", { priority := some "medium" }),
           ("emergency", "UAL9", { priority := some "critical" })]).active_alerts ≤
      c4s.max_simultaneous_alerts)
    ∧ Scenario.generate_alert c4s "vfr_intrusion" "N123"
        { priority := some "medium" } =
        (none, Scenario.addSuppressed c4s
          ("vfr_intrusion" ++ "_" ++ "N123" ++ "_" ++
            toString (pyInt c4s.elapsed_time))
          "vfr_intrusion" "N123" "medium" "max_alerts_reached")) :=
  ⟨by decide, by decide,
   alert_cap_never_exceeded c4s
     [("conflict", "AAL3", { priority := some "medium" }),
      ("emergency", "UAL9", { priority := some "critical" })]
     "vfr_intrusion" "N123" { priority := some "medium" }
     (by decide) (by decide) (by decide) (by decide) (by decide) (by decide)
     (by decide)⟩

namespace Scenario

/-- Setting the `triggered` flag of an event (the marking side effect of
the scheduler, whose `to_dict` also lands in the triggered list). -/
def markTriggered (e : ScenarioEvent) : ScenarioEvent := { e with triggered := true }

/-- Handler registries whose handlers never modify `elapsed_time` — true
of every handler in the default `_event_handlers` registry. -/
def ElapsedInv (h : Handlers) : Prop :=
  ∀ ty f, h ty = some f → ∀ e st, (f e st).elapsed_time = st.elapsed_time

/-- The flag update a single scheduler pass at elapsed time `t` applies
to one event. -/
def stepMark (t : ℚ) (e : ScenarioEvent) : ScenarioEvent :=
  if e.triggered = false ∧ e.time_offset ≤ t then markTriggered e else e

/-- Some advance in the list has reached the offset. -/
def reachedBy (ts : List ℚ) (off : ℚ) : Prop := ∃ t ∈ ts, off ≤ t

instance (ts : List ℚ) (off : ℚ) : Decidable (reachedBy ts off) :=
  List.decidableBEx _ ts

/-- The cumulative flag update of a sequence of advances. -/
def cumMark (ts : List ℚ) (e : ScenarioEvent) : ScenarioEvent :=
  if reachedBy ts e.time_offset then markTriggered e else e

theorem trigger_event_elapsed (h : Handlers) (hH : ElapsedInv h)
    (e : ScenarioEvent) (st : State) :
    (trigger_event h e st).elapsed_time = st.elapsed_time := by
  unfold trigger_event
  cases hh : h e.event_type with
  | none => rfl
  | some f => exact hH _ f hh e st

theorem triggerGo_spec (h : Handlers) (hH : ElapsedInv h) :
    ∀ (es : List ScenarioEvent) (st : State),
      (triggerGo h es st).1 = es.map (stepMark st.elapsed_time) ∧
      (triggerGo h es st).2.2 = (es.filter (fun e =>
        decide (e.triggered = false ∧ e.time_offset ≤ st.elapsed_time))).map
        markTriggered ∧
      (triggerGo h es st).2.1.elapsed_time = st.elapsed_time := by
  intro es
  induction es with
  | nil => exact fun st => ⟨rfl, rfl, rfl⟩
  | cons e rest ih =>
    intro st
    have hel : (trigger_event h { e with triggered := true } st).elapsed_time
        = st.elapsed_time := trigger_event_elapsed h hH _ st
    obtain ⟨ih1, ih2, ih3⟩ := ih (trigger_event h { e with triggered := true } st)
    unfold triggerGo
    by_cases hc : (e.triggered = false ∧ e.time_offset ≤ st.elapsed_time)
    · rw [if_pos hc]
      refine ⟨?_, ?_, ?_⟩
      · show ({ e with triggered := true } ::
          (triggerGo h rest (trigger_event h { e with triggered := true } st)).1) = _
        rw [ih1, hel]
        rw [List.map_cons]
        unfold stepMark
        rw [if_pos hc]
        rfl
      · show ({ e with triggered := true } ::
          (triggerGo h rest (trigger_event h { e with triggered := true } st)).2.2) = _
        rw [ih2, hel]
        rw [List.filter_cons_of_pos (by simpa using hc), List.map_cons]
        rfl
      · show (triggerGo h rest (trigger_event h { e with triggered := true } st)).2.1.elapsed_time = _
        rw [ih3, hel]
    · rw [if_neg hc]
      obtain ⟨jh1, jh2, jh3⟩ := ih st
      refine ⟨?_, ?_, ?_⟩
      · show (e :: (triggerGo h rest st).1) = _
        rw [jh1, List.map_cons]
        unfold stepMark
        rw [if_neg hc]
      · show (triggerGo h rest st).2.2 = _
        rw [jh2, List.filter_cons_of_neg (by simpa using hc)]
      · exact jh3

theorem advance_events (h : Handlers) (hH : ElapsedInv h) (s : State) (t : ℚ) :
    (advance h s t).1.events = s.events.map (stepMark t) := by
  unfold advance check_and_trigger_events
  exact (triggerGo_spec h hH s.events { s with elapsed_time := t }).1

theorem advance_trig (h : Handlers) (hH : ElapsedInv h) (s : State) (t : ℚ) :
    (advance h s t).2 = (s.events.filter (fun e =>
      decide (e.triggered = false ∧ e.time_offset ≤ t))).map markTriggered := by
  unfold advance check_and_trigger_events
  exact (triggerGo_spec h hH s.events { s with elapsed_time := t }).2.1

theorem stepMark_cumMark (t : ℚ) (ts : List ℚ) (e : ScenarioEvent)
    (he : e.triggered = false) :
    stepMark t (cumMark ts e) = cumMark (ts ++ [t]) e := by
  unfold stepMark cumMark
  by_cases hr : reachedBy ts e.time_offset
  · rw [if_pos hr, if_neg (by simp [markTriggered])]
    rw [if_pos (by
      rcases hr with ⟨x, hx, hle⟩
      exact ⟨x, by simp [hx], hle⟩)]
  · rw [if_neg hr]
    by_cases ht : e.time_offset ≤ t
    · rw [if_pos ⟨he, ht⟩, if_pos ⟨t, by simp, ht⟩]
    · rw [if_neg (by rintro ⟨-, hco⟩; exact ht hco)]
      rw [if_neg (by
        rintro ⟨x, hx, hle⟩
        rcases List.mem_append.mp hx with hmem | hmem
        · exact hr ⟨x, hmem, hle⟩
        · rw [List.mem_singleton.mp hmem] at hle
          exact ht hle)]

end Scenario

namespace Scenario

theorem advanceSeq_spec (h : Handlers) (hH : ElapsedInv h)
    (es0 : List ScenarioEvent) (hinit : ∀ e ∈ es0, e.triggered = false) :
    ∀ (ts : List ℚ) (s : State) (pre : List ℚ),
      s.events = es0.map (cumMark pre) →
      ((advanceSeq h s ts).1.events = es0.map (cumMark (pre ++ ts)))
      ∧ (∀ j, j < ts.length →
        (advanceSeq h s ts).2.getD j [] =
          (es0.filter (fun e => decide (e.time_offset ≤ ts.getD j 0 ∧
            ¬ reachedBy (pre ++ ts.take j) e.time_offset))).map markTriggered) := by
  intro ts
  induction ts with
  | nil =>
    intro s pre hsev
    refine ⟨?_, ?_⟩
    · rw [List.append_nil]
      exact hsev
    · intro j hj
      simp at hj
  | cons t ts' ih =>
    intro s pre hsev
    have hev1 : (advance h s t).1.events = es0.map (cumMark (pre ++ [t])) := by
      rw [advance_events h hH s t, hsev, List.map_map]
      exact List.map_congr_left (fun e he => stepMark_cumMark t pre e (hinit e he))
    obtain ⟨ihev, ihout⟩ := ih (advance h s t).1 (pre ++ [t]) hev1
    constructor
    · show (advanceSeq h (advance h s t).1 ts').1.events = _
      rw [ihev]
      simp only [List.append_assoc, List.singleton_append]
    · intro j hj
      cases j with
      | zero =>
        show (advance h s t).2 = _
        rw [advance_trig h hH s t, hsev]
        rw [List.filter_map]
        have hfe : es0.filter ((fun e => decide (e.triggered = false ∧
            e.time_offset ≤ t)) ∘ cumMark pre) =
            es0.filter (fun e => decide (e.time_offset ≤ (t :: ts').getD 0 0 ∧
              ¬ reachedBy (pre ++ (t :: ts').take 0) e.time_offset)) := by
          refine List.filter_congr (fun e he => ?_)
          simp only [Function.comp_apply, List.getD_cons_zero, List.take_zero,
            List.append_nil]
          refine decide_eq_decide.mpr ?_
          unfold cumMark
          by_cases hr : reachedBy pre e.time_offset
          · rw [if_pos hr]
            simp [markTriggered, hr]
          · rw [if_neg hr]
            simp [hinit e he, hr]
        rw [hfe, List.map_map]
        refine List.map_congr_left (fun e he => ?_)
        have hq := List.of_mem_filter he
        simp only [decide_eq_true_eq, List.take_zero, List.append_nil] at hq
        simp only [Function.comp_apply]
        unfold cumMark
        rw [if_neg hq.2]
      | succ j' =>
        show (advanceSeq h (advance h s t).1 ts').2.getD j' [] = _
        rw [ihout j' (by simpa using hj)]
        simp only [List.getD_cons_succ, List.take_succ_cons, List.append_assoc,
          List.singleton_append]

end Scenario

/-- Claim C1. For any handler registry whose handlers leave
`elapsed_time` alone (true of the whole default registry), any scenario
whose scripted events all start untriggered, and any non-decreasing
sequence of advances: (i) the events triggered at step `j` are exactly
the scripted events whose `time_offset` has been reached at step `j` but
at no earlier step — i.e. each event fires at the first advance with
`elapsed_time ≥ time_offset`; (ii) after the whole sequence an event's
`triggered` flag is set exactly when some advance reached its offset (so
re-advancing past an already-triggered event leaves the flag `true` and
is a no-op); (iii) no event is ever triggered at two different steps —
each fires exactly once. -/
theorem scripted_events_fire_exactly_once
    (h : Scenario.Handlers) (hH : Scenario.ElapsedInv h)
    (s : Scenario.State) (ts : List ℚ)
    (hinit : ∀ e ∈ s.events, e.triggered = false)
    (hmono : ts.Chain' (· ≤ ·)) :
    (∀ j, j < ts.length →
      (Scenario.advanceSeq h s ts).2.getD j [] =
        (s.events.filter (fun e => decide (e.time_offset ≤ ts.getD j 0 ∧
          ∀ t ∈ ts.take j, t < e.time_offset))).map Scenario.markTriggered)
    ∧ ((Scenario.advanceSeq h s ts).1.events =
        s.events.map (fun e =>
          if ∃ t ∈ ts, e.time_offset ≤ t then Scenario.markTriggered e else e))
    ∧ (∀ j1 j2, j1 < j2 → j2 < ts.length → ∀ e,
        e ∈ (Scenario.advanceSeq h s ts).2.getD j1 [] →
        e ∉ (Scenario.advanceSeq h s ts).2.getD j2 []) := by
  have hbase : s.events = s.events.map (Scenario.cumMark []) := by
    have hid : ∀ e ∈ s.events, Scenario.cumMark [] e = e := by
      intro e he
      unfold Scenario.cumMark
      rw [if_neg (by simp [Scenario.reachedBy])]
    have hmapped : s.events.map (Scenario.cumMark []) = s.events := by
      rw [List.map_congr_left hid]
      simp
    exact hmapped.symm
  obtain ⟨hev, hout⟩ :=
    Scenario.advanceSeq_spec h hH s.events hinit ts s [] hbase
  have houtA : ∀ j, j < ts.length →
      (Scenario.advanceSeq h s ts).2.getD j [] =
        (s.events.filter (fun e => decide (e.time_offset ≤ ts.getD j 0 ∧
          ∀ t ∈ ts.take j, t < e.time_offset))).map Scenario.markTriggered := by
    intro j hj
    rw [hout j hj]
    refine congrArg (List.map Scenario.markTriggered)
      (List.filter_congr (fun e he => decide_eq_decide.mpr ?_))
    simp only [List.nil_append]
    refine and_congr_right (fun _ => ?_)
    unfold Scenario.reachedBy
    constructor
    · intro hn t htm
      by_contra hc
      push_neg at hc
      exact hn ⟨t, htm, hc⟩
    · rintro hall ⟨t, htm, hle⟩
      exact absurd hle (not_le.mpr (hall t htm))
  refine ⟨houtA, ?_, ?_⟩
  · rw [hev]
    simp only [List.nil_append]
    exact List.map_congr_left (fun e _ => rfl)
  · intro j1 j2 hj12 hj2 e he1 he2
    have hj1 : j1 < ts.length := lt_trans hj12 hj2
    rw [houtA j1 hj1] at he1
    rw [houtA j2 hj2] at he2
    rcases List.mem_map.mp he1 with ⟨e1, he1f, he1m⟩
    rcases List.mem_map.mp he2 with ⟨e2, he2f, he2m⟩
    have hq1 := List.of_mem_filter he1f
    have hq2 := List.of_mem_filter he2f
    simp only [decide_eq_true_eq] at hq1 hq2
    have hoff : e1.time_offset = e2.time_offset := by
      have hmk := congrArg Scenario.ScenarioEvent.time_offset (he1m.trans he2m.symm)
      simpa [Scenario.markTriggered] using hmk
    have hmem : ts.getD j1 0 ∈ ts.take j2 := by
      have h1 : (ts.take j2)[j1]? = ts[j1]? := by
        rw [List.getElem?_take]
        rw [if_pos hj12]
      have h2 : ts[j1]? = some ts[j1] := List.getElem?_eq_getElem hj1
      have h3 : ts.getD j1 0 = ts[j1] := by
        rw [List.getD_eq_getElem?_getD, h2]
        rfl
      rw [h3]
      exact List.getElem?_mem (by rw [h1, h2])
    have hlt := hq2.2 (ts.getD j1 0) hmem
    rw [← hoff] at hlt
    exact absurd hq1.1 (not_le.mpr hlt)

/-- The concrete state of C1's witness: one scripted comm-loss event at
`t = 156` and one spawn event at `t = 300`, both untriggered. -/
def c1s : Scenario.State :=
  { events := [{ time_offset := 156, event_type := "comm_loss", target := "AAL119" },
               { time_offset := 300, event_type := "aircraft_spawn", target := "N42" }] }

/-- The advance sequence of C1's witness. -/
def c1ts : List ℚ := [100, 160, 200]

/-- Witness for C1 at a concrete input: with advances to 100, 160 and
200 s, the 156-second event fires exactly at the second advance and the
300-second event never fires. -/
theorem scripted_events_fire_exactly_once_witness :
    Scenario.ElapsedInv (fun _ => none) ∧
    (∀ e ∈ c1s.events, e.triggered = false) ∧
    c1ts.Chain' (· ≤ ·) ∧
    ((∀ j, j < c1ts.length →
      (Scenario.advanceSeq (fun _ => none) c1s c1ts).2.getD j [] =
        (c1s.events.filter (fun e => decide (e.time_offset ≤ c1ts.getD j 0 ∧
          ∀ t ∈ c1ts.take j, t < e.time_offset))).map Scenario.markTriggered)
    ∧ ((Scenario.advanceSeq (fun _ => none) c1s c1ts).1.events =
        c1s.events.map (fun e =>
          if ∃ t ∈ c1ts, e.time_offset ≤ t then Scenario.markTriggered e else e))
    ∧ (∀ j1 j2, j1 < j2 → j2 < c1ts.length → ∀ e,
        e ∈ (Scenario.advanceSeq (fun _ => none) c1s c1ts).2.getD j1 [] →
        e ∉ (Scenario.advanceSeq (fun _ => none) c1s c1ts).2.getD j2 [])) :=
  ⟨fun _ _ hf => Option.noConfusion hf, by decide,
   by norm_num [c1ts, List.chain'_cons],
   scripted_events_fire_exactly_once (fun _ => none)
     (fun _ _ hf => Option.noConfusion hf) c1s c1ts (by decide)
     (by norm_num [c1ts, List.chain'_cons])⟩
